import Mathlib

/-!
Verification development for stock_movers.py (stock-movers-alert).

Shallow embedding conventions:

* Prices are modelled as rationals.  The Python program computes with
  numpy float64 values; every arithmetic identity claimed below is an
  exact identity of the source expressions, so the rational model is
  faithful except where a comment says otherwise (division by zero:
  numpy float64 division by zero yields inf or nan together with a
  RuntimeWarning, it does not raise an exception; in the rational model
  the Lean convention x / 0 = 0 applies.  In both semantics the record
  is still appended, which is the only fact the theorems below use).

* Timestamps are modelled as instants: whole seconds counted from UTC
  midnight of the trade date.  pandas compares timezone-aware
  timestamps by instant, and tz_convert changes only the displayed
  wall-clock, never the instant, so the filter on line 39 of the source
  is exactly a comparison of instants.

* The two window bounds on lines 25 and 26 of the source are built with
  datetime.combine(today, time(9, 30)).replace(tzinfo=est) where est is
  pytz.timezone(US/Eastern).  replace attaches the tzinfo object
  without localizing; a pytz zone object used that way carries the
  first (LMT) offset of the zone, UTC-04:56 for US/Eastern, a behaviour
  pytz itself documents (construction must go through localize).  The
  instant denoted by the bound is therefore wall 09:30 at offset
  -04:56, i.e. 14:26 UTC, not 09:30 Eastern wall clock.

* The pandas pipeline on lines 60 to 64,
  df.sort_values(Abs_Change, ascending=False).head(5), is modelled on
  lists.  pandas nargsort computes a descending sort by reversing the
  column, running an ascending argsort kernel, and reversing the
  resulting indexer; the model below uses the same
  reverse-sort-reverse shape with a stable comparison sort standing in
  for the numpy argsort kernel.  The numpy default kernel (quicksort,
  an introsort) is stable only when it degenerates to an insertion
  sort, so no theorem below relies on the order of records whose keys
  tie; only sortedness of keys and lengths are used, and those hold for
  every correct argsort kernel.

* The orchestration in main and send_email (lines 68 to 168) is
  modelled as a trace of console/SMTP events plus a process exit code.
  A Python process that lets an exception escape main terminates with
  exit status 1.  The SMTP transport is an oracle value saying which
  step of the session, if any, fails.
-/

namespace StockMovers

/-- One OHLC bar, reduced to the fields the program reads: the instant
of its index entry (seconds since UTC midnight of the trade date) and
the Open and Close columns. -/
structure Bar where
  ts : ℤ
  Open : ℚ
  Close : ℚ
deriving DecidableEq, Repr

/-- Offset, in seconds, that pytz attaches when a pytz zone object is
passed to datetime.replace: the LMT entry of US/Eastern, UTC-04:56. -/
def lmtOffset : ℤ := -(4 * 3600 + 56 * 60)

/-- Instant of the expression on line 25 of the source,
datetime.combine(today, time(9, 30)).replace(tzinfo=est): wall 09:30 at
the attached LMT offset, i.e. 14:26 UTC. -/
def market_open : ℤ := (9 * 3600 + 30 * 60) - lmtOffset

/-- Instant of the expression on line 26 of the source, wall 10:00 at
the attached LMT offset, i.e. 14:56 UTC. -/
def ten_am : ℤ := 10 * 3600 - lmtOffset

/-- The boolean mask of line 39 of the source:
(hist.index >= market_open) & (hist.index <= ten_am), an instant
comparison, inclusive on both ends. -/
def inWindow (b : Bar) : Bool := market_open ≤ b.ts && b.ts ≤ ten_am

/-- The record appended on lines 48 to 54 of the source (dict with keys
Ticker, Open, 10AM Price, Change, Change %). -/
structure ChangeRecord where
  Ticker : String
  Open : ℚ
  tenAmPrice : ℚ
  Change : ℚ
  ChangePct : ℚ
deriving DecidableEq, Repr

/-- The per-ticker body of the loop on lines 31 to 54 of the source:
skip when the history is empty, filter to the window, skip when fewer
than two bars remain, otherwise build the record from the Open of the
first filtered bar and the Close of the last filtered bar.  Division by
a zero open price does not raise in the source (numpy float64 yields
inf/nan plus a RuntimeWarning), so the record is appended even then;
the rational model follows Lean division, x / 0 = 0, and no theorem
relies on the numeric value of ChangePct at a zero open price. -/
def processTicker (ticker : String) (hist : List Bar) : Option ChangeRecord :=
  if hist.isEmpty then none
  else
    let morning_data := hist.filter inWindow
    if morning_data.length < 2 then none
    else
      match morning_data.head?, morning_data.getLast? with
      | some firstBar, some lastBar =>
        let open_price := firstBar.Open
        let ten_am_price := lastBar.Close
        let pct_change := (ten_am_price - open_price) / open_price * 100
        some { Ticker := ticker, Open := open_price, tenAmPrice := ten_am_price,
               Change := ten_am_price - open_price, ChangePct := pct_change }
      | _, _ => none

/-- The hardcoded ticker universe, lines 17 and 18 of the source. -/
def STOCKS : List String :=
  ["AAPL", "MSFT", "GOOGL", "AMZN", "TSLA", "META", "NVDA", "JPM", "V", "WMT",
   "JNJ", "PG", "MA", "HD", "DIS", "BAC", "ADBE", "NFLX", "CRM", "CSCO"]

/-- Ascending comparison on the Abs_Change column of line 62:
absolute value of Change %. -/
def absChangeLe (a b : ChangeRecord) : Prop := |a.ChangePct| ≤ |b.ChangePct|

instance : DecidableRel absChangeLe := fun a b =>
  inferInstanceAs (Decidable (|a.ChangePct| ≤ |b.ChangePct|))

instance : IsTotal ChangeRecord absChangeLe :=
  ⟨fun a b => le_total |a.ChangePct| |b.ChangePct|⟩

instance : IsTrans ChangeRecord absChangeLe :=
  ⟨fun _ _ _ => le_trans⟩

/-- List model of df.sort_values(Abs_Change, ascending=False) on
line 63: pandas nargsort reverses the column, argsorts ascending and
reverses the indexer; a stable insertion sort stands in for the numpy
argsort kernel (see the module comment for why the tie order of the
real kernel is not relied on). -/
def sort_values_desc (l : List ChangeRecord) : List ChangeRecord :=
  (l.reverse.insertionSort absChangeLe).reverse

/-- Lines 20 to 66 of the source.  The external data provider (yfinance
history per ticker) is an argument; the loop walks the fixed STOCKS
list, collects the per-ticker records in order, and when the frame is
nonempty sorts by descending absolute percent change and keeps the
first five rows. -/
def get_stock_changes (hist_of : String → List Bar) : List ChangeRecord :=
  let stock_data := STOCKS.filterMap fun t => processTicker t (hist_of t)
  if stock_data.isEmpty then stock_data
  else (sort_values_desc stock_data).take 5

/-- Modelled from the spec: the intended window membership test, in
exchange-local wall-clock time.  tzOffset is the true UTC offset of the
exchange zone on the trade date (-4 h under daylight saving, -5 h under
standard time); a bar is inside the intended window when its local wall
clock lies between 09:30 and 10:00 inclusive.  This definition exists
only to compare the source filter inWindow with the window the spec
describes. -/
def spec_inWindow (tzOffset : ℤ) (b : Bar) : Bool :=
  (9 * 3600 + 30 * 60 : ℤ) ≤ b.ts + tzOffset && b.ts + tzOffset ≤ 10 * 3600

/-- True US/Eastern offset under daylight saving time (EDT), seconds. -/
def edtOffset : ℤ := -(4 * 3600)

/-- Row style selection, line 118 of the source:
change_class = positive if row change is greater than zero else
negative. -/
def change_class (row : ChangeRecord) : String :=
  if row.ChangePct > 0 then "positive" else "negative"

/-- Console and SMTP-session events observable in a run of main. -/
inductive Event where
  | printed (s : String)
  | printedTable (report : List ChangeRecord)
  | smtpConnect
  | startTls
  | loginStep
  | sendMessageStep
deriving DecidableEq, Repr

/-- The three required environment values read on lines 13 to 15 of the
source; os.environ.get returns None when a variable is unset.  The host
and port defaults are irrelevant to the claims and omitted. -/
structure Config where
  SENDER_EMAIL : Option String
  SENDER_PASSWORD : Option String
  RECIPIENT_EMAIL : Option String
deriving DecidableEq, Repr

/-- Oracle describing which step of the SMTP session fails on the
transport side, if any. -/
inductive SmtpOutcome where
  | ok
  | connectFail
  | tlsFail
  | authFail
  | sendFail
deriving DecidableEq, Repr

/-- The with-block of lines 144 to 147 of the source: construct the
connection, starttls, login, send_message, each step raising on
failure.  The event list records the steps that were started; the
boolean says whether an exception was raised inside the block.  A None
credential reaches server.login unchecked and raises there (smtplib
encodes the credential, and None has no encode); a None recipient
reaches server.send_message unchecked and raises there. -/
def smtp_attempt (cfg : Config) (outcome : SmtpOutcome) : List Event × Bool :=
  if outcome = .connectFail then ([.smtpConnect], true)
  else if outcome = .tlsFail then ([.smtpConnect, .startTls], true)
  else if outcome = .authFail ∨ cfg.SENDER_EMAIL = none ∨ cfg.SENDER_PASSWORD = none then
    ([.smtpConnect, .startTls, .loginStep], true)
  else if outcome = .sendFail ∨ cfg.RECIPIENT_EMAIL = none then
    ([.smtpConnect, .startTls, .loginStep, .sendMessageStep], true)
  else ([.smtpConnect, .startTls, .loginStep, .sendMessageStep], false)

/-- Lines 68 to 151 of the source: send_email builds the message, runs
the SMTP session in a try block, prints a success line on success, and
on any exception prints an error line and re-raises.  The returned
boolean is whether the call raises to its caller. -/
def send_email (cfg : Config) (outcome : SmtpOutcome) : List Event × Bool :=
  let attempt := smtp_attempt cfg outcome
  if attempt.2 then (attempt.1 ++ [.printed "Error sending email"], true)
  else (attempt.1 ++ [.printed "Email sent successfully!"], false)

/-- Lines 153 to 168 of the source.  main fetches the report; on an
empty frame it prints the notice and returns (process exit 0).
Otherwise it prints the summary table, prints the sending line and
calls send_email; an exception escaping send_email escapes main and the
interpreter exits with status 1. -/
def main (cfg : Config) (outcome : SmtpOutcome) (hist_of : String → List Bar) :
    List Event × Nat :=
  let ev0 : List Event := [.printed "Fetching stock data..."]
  let stock_data := get_stock_changes hist_of
  if stock_data.isEmpty then
    (ev0 ++ [.printed "No stock data available. Market may be closed or data unavailable."], 0)
  else
    let ev1 := ev0 ++ [.printed "Top 5 Stock Movers:", .printedTable stock_data,
                       .printed "Sending email..."]
    let sent := send_email cfg outcome
    (ev1 ++ sent.1, if sent.2 then 1 else 0)

/-! Concrete data used by witnesses and counterexample evaluations.
Instants: 48600 = 13:30 UTC = 09:30 EDT wall clock, 48660 = 09:31 EDT;
51960 = 14:26 UTC = 10:26 EDT, the low bound the source actually uses;
53760 = 14:56 UTC = 10:56 EDT, the high bound the source actually uses. -/

/-- Two bars at 09:30 and 09:31 EDT wall clock, inside the intended
exchange-local window and outside the window the source computes. -/
def c3bars : List Bar := [⟨48600, 100, 100⟩, ⟨48660, 100, 101⟩]

/-- Two bars inside the window the source computes, first Open zero. -/
def c6bars : List Bar := [⟨51960, 0, 1⟩, ⟨53760, 1, 1⟩]

/-- Two ordinary bars inside the window the source computes. -/
def c2bars : List Bar := [⟨51960, 100, 101⟩, ⟨53760, 101, 102⟩]

/-- Provider giving c2bars for AAPL and nothing for other tickers. -/
def oneTickerData : String → List Bar := fun t => if t = "AAPL" then c2bars else []

/-! Helper lemmas. -/

theorem length_filterMap_eq_countP {α β : Type} (f : α → Option β) (l : List α) :
    (l.filterMap f).length = l.countP (fun a => (f a).isSome) := by
  induction l with
  | nil => rfl
  | cons a l ih =>
    simp only [List.filterMap_cons, List.countP_cons]
    cases h : f a <;> simp [h, ih]

theorem length_sort_values_desc (l : List ChangeRecord) :
    (sort_values_desc l).length = l.length := by
  simp [sort_values_desc, List.length_insertionSort]

theorem pairwise_sort_values_desc (l : List ChangeRecord) :
    (sort_values_desc l).Pairwise (fun a b => |b.ChangePct| ≤ |a.ChangePct|) := by
  rw [sort_values_desc, List.pairwise_reverse]
  exact List.sorted_insertionSort absChangeLe l.reverse

/-- C1: for every collection of per-ticker bar data, the report
returned by get_stock_changes has length min(5, number of tickers whose
processing produced a record) and is pairwise ordered by descending
absolute value of percent change. -/
theorem C1_report_length_and_order (hist_of : String → List Bar) :
    (get_stock_changes hist_of).length
      = min 5 (STOCKS.countP fun t => (processTicker t (hist_of t)).isSome)
    ∧ (get_stock_changes hist_of).Pairwise
        (fun a b => |b.ChangePct| ≤ |a.ChangePct|) := by
  have hcount : (STOCKS.filterMap fun t => processTicker t (hist_of t)).length
      = STOCKS.countP fun t => (processTicker t (hist_of t)).isSome :=
    length_filterMap_eq_countP _ _
  have hget : get_stock_changes hist_of
      = if (STOCKS.filterMap fun t => processTicker t (hist_of t)).isEmpty
        then STOCKS.filterMap fun t => processTicker t (hist_of t)
        else (sort_values_desc
          (STOCKS.filterMap fun t => processTicker t (hist_of t))).take 5 := rfl
  by_cases h : (STOCKS.filterMap fun t => processTicker t (hist_of t)).isEmpty = true
  · have hnil : STOCKS.filterMap (fun t => processTicker t (hist_of t)) = [] :=
      List.isEmpty_iff.mp h
    rw [hget, if_pos h, hnil]
    refine ⟨?_, List.Pairwise.nil⟩
    rw [← hcount, hnil]
    rfl
  · rw [hget, if_neg h]
    constructor
    · rw [List.length_take, length_sort_values_desc, hcount]
    · exact (pairwise_sort_values_desc _).sublist (List.take_sublist 5 _)

/-- C2: for every ticker whose filtered window holds at least two bars,
the emitted record takes its open price from the Open of the first
filtered bar, its window-close price from the Close of the last
filtered bar, its absolute change is their difference and its percent
change is that difference divided by the open price times 100. -/
theorem C2_record_arithmetic (t : String) (hist : List Bar)
    (h2 : 2 ≤ (hist.filter inWindow).length) :
    ∃ r firstBar lastBar,
      processTicker t hist = some r ∧
      (hist.filter inWindow).head? = some firstBar ∧
      (hist.filter inWindow).getLast? = some lastBar ∧
      r.Open = firstBar.Open ∧
      r.tenAmPrice = lastBar.Close ∧
      r.Change = lastBar.Close - firstBar.Open ∧
      r.ChangePct = (lastBar.Close - firstBar.Open) / firstBar.Open * 100 := by
  have hne : hist.filter inWindow ≠ [] := by
    intro hl
    rw [hl] at h2
    simp at h2
  obtain ⟨fb, hfb⟩ : ∃ fb, (hist.filter inWindow).head? = some fb := by
    cases hh : (hist.filter inWindow).head? with
    | none => exact absurd (List.head?_eq_none_iff.mp hh) hne
    | some fb => exact ⟨fb, rfl⟩
  obtain ⟨lb, hlb⟩ : ∃ lb, (hist.filter inWindow).getLast? = some lb := by
    cases hh : (hist.filter inWindow).getLast? with
    | none => exact absurd (List.getLast?_eq_none_iff.mp hh) hne
    | some lb => exact ⟨lb, rfl⟩
  have hhe : hist.isEmpty = false := by
    cases hist with
    | nil => exact absurd rfl hne
    | cons a l => rfl
  refine ⟨⟨t, fb.Open, lb.Close, lb.Close - fb.Open,
      (lb.Close - fb.Open) / fb.Open * 100⟩, fb, lb, ?_, hfb, hlb, rfl, rfl, rfl, rfl⟩
  simp only [processTicker, hhe, Bool.false_eq_true, if_false]
  rw [if_neg (by omega : ¬ (hist.filter inWindow).length < 2), hfb, hlb]

/-- C2 witness: the record for two concrete bars with open 100 and
window close 102. -/
theorem C2_record_arithmetic_witness :
    2 ≤ (c2bars.filter inWindow).length ∧
    ∃ r firstBar lastBar,
      processTicker "AAPL" c2bars = some r ∧
      (c2bars.filter inWindow).head? = some firstBar ∧
      (c2bars.filter inWindow).getLast? = some lastBar ∧
      r.Open = firstBar.Open ∧
      r.tenAmPrice = lastBar.Close ∧
      r.Change = lastBar.Close - firstBar.Open ∧
      r.ChangePct = (lastBar.Close - firstBar.Open) / firstBar.Open * 100 :=
  ⟨by decide, C2_record_arithmetic "AAPL" c2bars (by decide)⟩

/-- C3: refuted on the code.  A ticker whose only two bars sit at 09:30
and 09:31 EDT wall clock has two bars inside the exchange-local
09:30-10:00 window, yet the source filter keeps none of them (its
bounds sit at the pytz LMT offset, 14:26-14:56 UTC) and the batch emits
no ChangeRecord at all for this collection. -/
theorem C3_in_window_bars_yield_no_record :
    (c3bars.filter (spec_inWindow edtOffset)).length = 2
    ∧ (c3bars.filter inWindow).length = 0
    ∧ processTicker "AAPL" c3bars = none
    ∧ get_stock_changes (fun t => if t = "AAPL" then c3bars else []) = [] := by
  refine ⟨by decide, by decide, by decide, by decide⟩

/-- C4: refuted on the code.  A bar stamped exactly 09:30:00 EDT wall
clock (instant 13:30 UTC = 48600) satisfies the exchange-local window
test but the source filter excludes it, and a bar stamped 10:26:00 EDT
(instant 14:26 UTC = 51960) fails the exchange-local window test but
the source filter includes it: the bounds built with
replace(tzinfo=pytz.timezone(US/Eastern)) sit at the LMT offset
UTC-04:56, so the selected instants are 14:26 to 14:56 UTC. -/
theorem C4_window_shifted_by_lmt_offset :
    spec_inWindow edtOffset ⟨48600, 100, 100⟩ = true
    ∧ inWindow ⟨48600, 100, 100⟩ = false
    ∧ spec_inWindow edtOffset ⟨51960, 100, 100⟩ = false
    ∧ inWindow ⟨51960, 100, 100⟩ = true
    ∧ market_open = 51960 ∧ ten_am = 53760 := by
  refine ⟨by decide, by decide, by decide, by decide, by decide, by decide⟩

/-- C6: refuted on the code.  With a first in-window bar whose Open is
exactly zero, a ChangeRecord is still emitted for the ticker (numpy
float64 division by zero yields inf or nan with a RuntimeWarning and
raises no exception, so the except clause never runs); the report for
this collection holds that one record. -/
theorem C6_zero_open_still_emits_record :
    (c6bars.filter inWindow).head? = some ⟨51960, 0, 1⟩
    ∧ (∃ r, processTicker "AAPL" c6bars = some r ∧ r.Ticker = "AAPL" ∧ r.Open = 0)
    ∧ (get_stock_changes fun t => if t = "AAPL" then c6bars else []).length = 1 := by
  refine ⟨by decide, ⟨⟨"AAPL", 0, 1, 1 - 0, (1 - 0) / 0 * 100⟩, rfl, rfl, rfl⟩, by decide⟩

/-- C10: in the rendered HTML row the class is positive exactly when
the percent change is strictly positive, and negative exactly when it
is zero or below; in particular a row with percent change zero is
styled negative. -/
theorem C10_row_class_boundary (row : ChangeRecord) :
    (change_class row = "positive" ↔ 0 < row.ChangePct)
    ∧ (change_class row = "negative" ↔ row.ChangePct ≤ 0) := by
  by_cases h : 0 < row.ChangePct
  · rw [change_class, if_pos h]
    refine ⟨⟨fun _ => h, fun _ => rfl⟩, ⟨fun hs => absurd hs (by decide), ?_⟩⟩
    intro hle
    exact absurd h (not_lt.mpr hle)
  · rw [change_class, if_neg h]
    refine ⟨⟨fun hs => absurd hs (by decide), fun hlt => absurd hlt h⟩,
      ⟨fun _ => not_lt.mp h, fun _ => rfl⟩⟩

/-- C7: whenever the computed report is empty, main prints the
informational notice, no SMTP session step of any kind appears in the
trace (the Emailer is never invoked), and the process exits 0. -/
theorem C7_empty_report_skips_email (cfg : Config) (outcome : SmtpOutcome)
    (hist_of : String → List Bar) (h : get_stock_changes hist_of = []) :
    (main cfg outcome hist_of).1
      = [.printed "Fetching stock data...",
         .printed "No stock data available. Market may be closed or data unavailable."]
    ∧ Event.smtpConnect ∉ (main cfg outcome hist_of).1
    ∧ (main cfg outcome hist_of).2 = 0 := by
  have he : (get_stock_changes hist_of).isEmpty = true := by
    rw [h]
    rfl
  have hm : main cfg outcome hist_of
      = ([.printed "Fetching stock data...",
          .printed "No stock data available. Market may be closed or data unavailable."], 0) := by
    simp only [main]
    rw [he]
    rfl
  rw [hm]
  refine ⟨rfl, by decide, rfl⟩

/-- C7 witness: a provider on which every ticker has empty history. -/
theorem C7_empty_report_skips_email_witness :
    get_stock_changes (fun _ => []) = []
    ∧ ((main ⟨some "a", some "b", some "c"⟩ .ok fun _ => []).1
        = [.printed "Fetching stock data...",
           .printed "No stock data available. Market may be closed or data unavailable."]
      ∧ Event.smtpConnect ∉ (main ⟨some "a", some "b", some "c"⟩ .ok fun _ => []).1
      ∧ (main ⟨some "a", some "b", some "c"⟩ .ok fun _ => []).2 = 0) :=
  ⟨by decide, C7_empty_report_skips_email _ _ _ (by decide)⟩

theorem smtp_attempt_connect_count (cfg : Config) (outcome : SmtpOutcome) :
    (smtp_attempt cfg outcome).1.count Event.smtpConnect = 1 := by
  unfold smtp_attempt
  split_ifs <;> rfl

theorem smtp_attempt_raises_of_fail (cfg : Config) (outcome : SmtpOutcome)
    (h : outcome ≠ .ok) : (smtp_attempt cfg outcome).2 = true := by
  unfold smtp_attempt
  split_ifs with h1 h2 h3 h4 <;> try rfl
  cases outcome <;> simp_all

/-- C8: for every run whose report is nonempty and whose SMTP session
fails at some step (connection, TLS, authentication or message
rejection), the trace splits into a prefix holding the printed summary
table and no SMTP step, followed by a suffix holding exactly one
connection attempt (no retry) and the printed delivery error, and the
process exits nonzero because the exception re-raised by send_email
escapes main. -/
theorem C8_delivery_failure_fatal (cfg : Config) (outcome : SmtpOutcome)
    (hist_of : String → List Bar) (hne : get_stock_changes hist_of ≠ [])
    (hfail : outcome ≠ .ok) :
    ∃ pre post, (main cfg outcome hist_of).1 = pre ++ post
      ∧ Event.printedTable (get_stock_changes hist_of) ∈ pre
      ∧ Event.smtpConnect ∉ pre
      ∧ post.count Event.smtpConnect = 1
      ∧ Event.printed "Error sending email" ∈ post
      ∧ (main cfg outcome hist_of).2 = 1 := by
  have he : (get_stock_changes hist_of).isEmpty = false := by
    cases hb : (get_stock_changes hist_of).isEmpty
    · rfl
    · exact absurd (List.isEmpty_iff.mp hb) hne
  have hraised : (smtp_attempt cfg outcome).2 = true :=
    smtp_attempt_raises_of_fail cfg outcome hfail
  have hsend : send_email cfg outcome
      = ((smtp_attempt cfg outcome).1 ++ [.printed "Error sending email"], true) := by
    simp only [send_email]
    rw [hraised]
    rfl
  have hm : main cfg outcome hist_of
      = ([.printed "Fetching stock data...", .printed "Top 5 Stock Movers:",
          .printedTable (get_stock_changes hist_of), .printed "Sending email..."]
          ++ ((smtp_attempt cfg outcome).1 ++ [.printed "Error sending email"]), 1) := by
    simp only [main]
    rw [he, hsend]
    rfl
  refine ⟨[.printed "Fetching stock data...", .printed "Top 5 Stock Movers:",
      .printedTable (get_stock_changes hist_of), .printed "Sending email..."],
    (smtp_attempt cfg outcome).1 ++ [.printed "Error sending email"],
    by rw [hm], by simp, by simp, ?_, by simp, by rw [hm]⟩
  rw [List.count_append, smtp_attempt_connect_count]
  rfl

/-- C8 witness: one ticker with data, authentication failure. -/
theorem C8_delivery_failure_fatal_witness :
    get_stock_changes oneTickerData ≠ []
    ∧ SmtpOutcome.authFail ≠ SmtpOutcome.ok
    ∧ ∃ pre post,
        (main ⟨some "a", some "b", some "c"⟩ .authFail oneTickerData).1 = pre ++ post
        ∧ Event.printedTable (get_stock_changes oneTickerData) ∈ pre
        ∧ Event.smtpConnect ∉ pre
        ∧ post.count Event.smtpConnect = 1
        ∧ Event.printed "Error sending email" ∈ post
        ∧ (main ⟨some "a", some "b", some "c"⟩ .authFail oneTickerData).2 = 1 :=
  ⟨by decide, by decide,
    C8_delivery_failure_fatal ⟨some "a", some "b", some "c"⟩ .authFail oneTickerData
      (by decide) (by decide)⟩

/-- C9: refuted on the code.  With the sender identity unset and the
transport itself healthy, the run still opens the SMTP connection and
starts TLS (delivery is attempted), the failure only arises at the
login step inside the same try block as every delivery failure, the
printed line is the delivery error line, and the process exits through
the very same fatal path: there is no fail-fast configuration check and
no error channel distinct from a delivery error. -/
theorem C9_missing_config_not_failfast :
    (smtp_attempt ⟨none, some "pw", some "to"⟩ .ok).1
      = [Event.smtpConnect, Event.startTls, Event.loginStep]
    ∧ (smtp_attempt ⟨none, some "pw", some "to"⟩ .ok).2 = true
    ∧ Event.smtpConnect ∈ (main ⟨none, some "pw", some "to"⟩ .ok oneTickerData).1
    ∧ Event.printed "Error sending email"
        ∈ (main ⟨none, some "pw", some "to"⟩ .ok oneTickerData).1
    ∧ (main ⟨none, some "pw", some "to"⟩ .ok oneTickerData).2 = 1 := by
  refine ⟨by decide, by decide, by decide, by decide, by decide⟩

/-- C1 witness: the general length-and-order theorem applied to a
concrete provider with data for a single ticker. -/
theorem C1_report_length_and_order_witness :
    (get_stock_changes oneTickerData).length
      = min 5 (STOCKS.countP fun t => (processTicker t (oneTickerData t)).isSome)
    ∧ (get_stock_changes oneTickerData).Pairwise
        (fun a b => |b.ChangePct| ≤ |a.ChangePct|) :=
  C1_report_length_and_order oneTickerData

/-- C10 witness: the class theorem applied to a record with percent
change exactly zero, which therefore renders with the negative class. -/
theorem C10_row_class_boundary_witness :
    (change_class ⟨"AAPL", 100, 100, 0, 0⟩ = "positive" ↔ (0 : ℚ) < 0)
    ∧ (change_class ⟨"AAPL", 100, 100, 0, 0⟩ = "negative" ↔ (0 : ℚ) ≤ 0) :=
  C10_row_class_boundary ⟨"AAPL", 100, 100, 0, 0⟩

end StockMovers
